import Mathlib

/-!
Verification development for the `ukhotides` Python package: a client for the
UKHO Tides API.  The definitions below are a shallow embedding of the package
sources (`ukhotides/__init__.py`, `ukhotides/dataclasses.py`,
`ukhotides/enums.py`, `ukhotides/exceptions.py`).  JSON payloads are modelled
by an inductive `Json` type, Python `KeyError`/`TypeError` by `PyErr`, the
exception classes of `exceptions.py` by `ApiException`, and each client
coroutine by a pure function from the client state, its arguments and the HTTP
response to a `CallResult`: the (unchanged) client state, the request URL it
built, and either a value or the raised exception.
-/

/-- A JSON value, as produced by `resp.json()`.  Numbers are modelled as
rationals (JSON numerals are decimal literals).  Objects keep their key order,
matching Python dicts. -/
inductive Json where
  | null : Json
  | bool (b : Bool) : Json
  | num (q : ℚ) : Json
  | str (s : String) : Json
  | arr (items : List Json) : Json
  | obj (fields : List (String × Json)) : Json

/-- A Python exception arising from subscripting or iterating a value:
`KeyError` for a missing dict key, `TypeError` for subscripting or iterating a
value of the wrong type. -/
inductive PyErr where
  | keyError (key : String) : PyErr
  | typeError : PyErr
deriving DecidableEq

/-- Python `data[k]`: on a dict, looks the key up (first binding wins) and
raises `KeyError` when absent; on any non-dict JSON value it raises
`TypeError`. -/
def Json.getItem (data : Json) (k : String) : Except PyErr Json :=
  match data with
  | .obj fields =>
    match fields.lookup k with
    | some v => .ok v
    | none => .error (.keyError k)
  | _ => .error .typeError

/-- Python `for x in data`: a list yields its items, a dict yields its keys,
a string yields its one-character substrings, and every other value raises
`TypeError`. -/
def Json.iter (data : Json) : Except PyErr (List Json) :=
  match data with
  | .arr items => .ok items
  | .obj fields => .ok (fields.map fun kv => .str kv.1)
  | .str s => .ok (s.toList.map fun ch => .str ch.toString)
  | _ => .error .typeError

/-- A Python list comprehension `[f x for x in xs]` where `f` may raise: the
first raised exception propagates, otherwise the list of results is built in
order. -/
def pyListMap (f : Json → Except PyErr α) : List Json → Except PyErr (List α)
  | [] => .ok []
  | x :: xs =>
    match f x with
    | .error e => .error e
    | .ok a =>
      match pyListMap f xs with
      | .error e => .error e
      | .ok as => .ok (a :: as)

/-- `Station` dataclass (`dataclasses.py`).  Python does not enforce the
`str` annotations, so the fields hold whatever JSON values were copied in. -/
structure Station where
  id : Json
  name : Json

/-- `Station.from_dict`: copies `data["properties"]["Id"]` and
`data["properties"]["Name"]`.  There is no `try`/`except` here: a missing key
raises `KeyError` to the caller. -/
def Station.from_dict (data : Json) : Except PyErr Station := do
  let props ← data.getItem "properties"
  let i ← props.getItem "Id"
  let n ← props.getItem "Name"
  pure { id := i, name := n }

/-- `TidalEvent` dataclass (`dataclasses.py`). -/
structure TidalEvent where
  event_type : Json
  date_time : Json
  height : Json

/-- `TidalEvent.from_dict`: copies `EventType`, `DateTime` and `Height`; the
body is wrapped in `try ... except KeyError: return None`, so a missing key
yields `none` while any other exception (here `TypeError` on a non-dict
input) still propagates. -/
def TidalEvent.from_dict (data : Json) : Except PyErr (Option TidalEvent) :=
  match (do
      let et ← data.getItem "EventType"
      let dt ← data.getItem "DateTime"
      let h ← data.getItem "Height"
      pure (TidalEvent.mk et dt h) : Except PyErr TidalEvent) with
  | .ok e => .ok (some e)
  | .error (.keyError _) => .ok none
  | .error .typeError => .error .typeError

/-- `TidalHeight` dataclass (`dataclasses.py`). -/
structure TidalHeight where
  date_time : Json
  height : Json

/-- `TidalHeight.from_dict`: copies `DateTime` and `Height` with the same
`try ... except KeyError: return None` soft-fail as `TidalEvent.from_dict`. -/
def TidalHeight.from_dict (data : Json) : Except PyErr (Option TidalHeight) :=
  match (do
      let dt ← data.getItem "DateTime"
      let h ← data.getItem "Height"
      pure (TidalHeight.mk dt h) : Except PyErr TidalHeight) with
  | .ok e => .ok (some e)
  | .error (.keyError _) => .ok none
  | .error .typeError => .error .typeError

/-- `ApiLevel` enum (`enums.py`). -/
inductive ApiLevel where
  | Discovery
  | Foundation
  | Premium
deriving DecidableEq

/-- The exception classes of `exceptions.py`.  Each class stores its single
constructor argument as `self.status`; at every raise site in
`_async_get_data` that argument is a message string. -/
inductive ApiException where
  | apiError (status : String) : ApiException
  | invalidApiKeyError (status : String) : ApiException
  | apiQuotaExceededError (status : String) : ApiException
  | tooManyRequestsError (status : String) : ApiException
  | stationNotFoundError (status : String) : ApiException
deriving DecidableEq

/-- Any exception a client coroutine can raise: one of the `exceptions.py`
classes from the fetch routine, or an uncaught `KeyError`/`TypeError` from
JSON access. -/
inductive ClientError where
  | api (e : ApiException) : ClientError
  | py (e : PyErr) : ClientError
deriving DecidableEq

/-- Modelled from the spec: the module `const.py` (imported by
`__init__.py` for `BASE_ENDPOINT`, `DISCOVERY_ENDPOINT`, `FOUNDATION_ENDPOINT`
and `PREMIUM_ENDPOINT`) is not under `src/`.  The values follow §6 of the spec
and the request URLs asserted in `src/tests/test_ukhotides.py`. -/
def BASE_ENDPOINT : String := "https://admiraltyapi.azure-api.net"

/-- Modelled from the spec: Discovery-tier path, `{base}/uktidalapi/api/V1`
plus the `/Stations` collection segment shared by every endpoint. -/
def DISCOVERY_ENDPOINT : String := "/uktidalapi/api/V1/Stations"

/-- Modelled from the spec: Foundation-tier path,
`{base}/uktidalapi-foundation/api/V2` plus `/Stations`. -/
def FOUNDATION_ENDPOINT : String := "/uktidalapi-foundation/api/V2/Stations"

/-- Modelled from the spec: Premium-tier path,
`{base}/uktidalapi-premium/api/V2` plus `/Stations`. -/
def PREMIUM_ENDPOINT : String := "/uktidalapi-premium/api/V2/Stations"

/-- The tier-specific API base path exactly as §6 of the spec words it
(without the `/Stations` collection segment).  This is the spec-side
definition used to compare the resolved base URL against the spec's table. -/
def specTierBasePath : ApiLevel → String
  | .Discovery => "/uktidalapi/api/V1"
  | .Foundation => "/uktidalapi-foundation/api/V2"
  | .Premium => "/uktidalapi-premium/api/V2"

/-- `UkhoTides` client state: the four attributes set by `__init__` and never
written again.  The externally owned `aiohttp` session is opaque to the
client, modelled as an abstract handle. -/
structure UkhoTides where
  session : Nat
  api_key : String
  api_level : ApiLevel
  base_url : String
deriving DecidableEq

/-- `UkhoTides.__init__`: stores session, key and level, and resolves the
base URL once from the level. -/
def UkhoTides.init (session : Nat) (api_key : String) (api_level : ApiLevel) :
    UkhoTides :=
  { session := session
    api_key := api_key
    api_level := api_level
    base_url :=
      if api_level = ApiLevel.Foundation then BASE_ENDPOINT ++ FOUNDATION_ENDPOINT
      else if api_level = ApiLevel.Premium then BASE_ENDPOINT ++ PREMIUM_ENDPOINT
      else BASE_ENDPOINT ++ DISCOVERY_ENDPOINT }

/-- An HTTP response as the shared fetch routine sees it: the status code and
the JSON the body parses to. -/
structure Response where
  status : Nat
  body : Json

/-- `UkhoTides._async_get_data`: issues the GET (the response is supplied
here as `resp`) and maps the status code, in source order 401, 403, 429, 404,
then any other non-200, to the raised exception; on 200 it returns the parsed
body. -/
def UkhoTides.async_get_data (_c : UkhoTides) (_url : String) (resp : Response) :
    Except ApiException Json :=
  if resp.status = 401 then .error (.invalidApiKeyError "Invalid API key")
  else if resp.status = 403 then .error (.apiQuotaExceededError "API quota exceeded")
  else if resp.status = 429 then .error (.tooManyRequestsError "Too many API requests")
  else if resp.status = 404 then .error (.stationNotFoundError "Station not found")
  else if resp.status ≠ 200 then
    .error (.apiError ("Invalid response from API: " ++ toString resp.status))
  else .ok resp.body

/-- Outcome of one client coroutine call: the client state afterwards, the
URL the call requested, and the returned value or raised exception. -/
structure CallResult (α : Type) where
  client : UkhoTides
  url : String
  result : Except ClientError α

/-- Lift the fetch routine's exceptions into `ClientError`. -/
def liftApi : Except ApiException α → Except ClientError α
  | .ok a => .ok a
  | .error e => .error (.api e)

/-- Lift uncaught `KeyError`/`TypeError` into `ClientError`. -/
def liftPy : Except PyErr α → Except ClientError α
  | .ok a => .ok a
  | .error e => .error (.py e)

/-- Zero-pad a numeric field to two digits, as `strftime` does for
`%m %d %H %M %S`. -/
def pad2 (n : Nat) : String :=
  if n < 10 then "0" ++ toString n else toString n

/-- Zero-pad the year to four digits, as `strftime`'s `%Y` renders the years
a `datetime` can hold. -/
def pad4 (n : Nat) : String :=
  if n < 10 then "000" ++ toString n
  else if n < 100 then "00" ++ toString n
  else if n < 1000 then "0" ++ toString n
  else toString n

/-- A Python `datetime` value, to the fields the two `strftime` format
strings in `__init__.py` consume. -/
structure Datetime where
  year : Nat
  month : Nat
  day : Nat
  hour : Nat
  minute : Nat
  second : Nat

/-- `d.strftime("%Y-%m-%d %H:%M:%S")`. -/
def Datetime.strftime_ymd_hms (d : Datetime) : String :=
  pad4 d.year ++ "-" ++ pad2 d.month ++ "-" ++ pad2 d.day ++ " " ++
    pad2 d.hour ++ ":" ++ pad2 d.minute ++ ":" ++ pad2 d.second

/-- `d.strftime("%Y-%m-%d")`. -/
def Datetime.strftime_ymd (d : Datetime) : String :=
  pad4 d.year ++ "-" ++ pad2 d.month ++ "-" ++ pad2 d.day

/-- `UkhoTides.async_get_stations`: builds the collection URL with the
optional raw `?name=` filter, fetches, and parses `data["features"]` into
`Station`s. -/
def UkhoTides.async_get_stations (c : UkhoTides) (name : Option String)
    (resp : Response) : CallResult (List Station) :=
  let url :=
    match name with
    | none => c.base_url
    | some n => c.base_url ++ "?name=" ++ n
  { client := c
    url := url
    result := do
      let data ← liftApi (c.async_get_data url resp)
      let features ← liftPy (data.getItem "features")
      let items ← liftPy features.iter
      let stations ← liftPy (pyListMap Station.from_dict items)
      pure stations }

/-- `UkhoTides.async_get_station`: fetches `{base}/{station_id}` and parses
the body as one `Station`. -/
def UkhoTides.async_get_station (c : UkhoTides) (station_id : String)
    (resp : Response) : CallResult Station :=
  let url := c.base_url ++ "/" ++ station_id
  { client := c
    url := url
    result := do
      let data ← liftApi (c.async_get_data url resp)
      liftPy (Station.from_dict data) }

/-- `UkhoTides.async_get_tidal_events`: fetches
`{base}/{station_id}/TidalEvents` with the optional `?duration=` filter,
parses every item with the soft-fail `TidalEvent.from_dict`, and filters the
`None` results out. -/
def UkhoTides.async_get_tidal_events (c : UkhoTides) (station_id : String)
    (duration : Option Int) (resp : Response) : CallResult (List TidalEvent) :=
  let url :=
    match duration with
    | none => c.base_url ++ "/" ++ station_id ++ "/TidalEvents"
    | some d => c.base_url ++ "/" ++ station_id ++ "/TidalEvents" ++ "?duration=" ++ toString d
  { client := c
    url := url
    result := do
      let data ← liftApi (c.async_get_data url resp)
      let items ← liftPy data.iter
      let events ← liftPy (pyListMap TidalEvent.from_dict items)
      pure (events.filterMap id) }

/-- `UkhoTides.async_get_tidal_events_for_date_range`: the premium date-range
endpoint; start is formatted `%Y-%m-%d %H:%M:%S`, end `%Y-%m-%d` only. -/
def UkhoTides.async_get_tidal_events_for_date_range (c : UkhoTides)
    (station_id : String) (start_date end_date : Datetime) (resp : Response) :
    CallResult (List TidalEvent) :=
  let url := c.base_url ++ "/" ++ station_id ++ "/TidalEventsForDateRange?" ++
    "StartDate=" ++ start_date.strftime_ymd_hms ++
    "&EndDate=" ++ end_date.strftime_ymd
  { client := c
    url := url
    result := do
      let data ← liftApi (c.async_get_data url resp)
      let items ← liftPy data.iter
      let events ← liftPy (pyListMap TidalEvent.from_dict items)
      pure (events.filterMap id) }

/-- `UkhoTides.async_get_tidal_height`: the premium single-height endpoint;
returns `data["Height"]` from the body. -/
def UkhoTides.async_get_tidal_height (c : UkhoTides) (station_id : String)
    (date_time : Datetime) (resp : Response) : CallResult Json :=
  let url := c.base_url ++ "/" ++ station_id ++ "/TidalHeight?" ++
    "DateTime=" ++ date_time.strftime_ymd_hms
  { client := c
    url := url
    result := do
      let data ← liftApi (c.async_get_data url resp)
      liftPy (data.getItem "Height") }

/-- `UkhoTides.async_get_tidal_heights`: the premium heights endpoint; both
dates are formatted `%Y-%m-%d %H:%M:%S`; items are parsed with the soft-fail
`TidalHeight.from_dict` and `None` results filtered out. -/
def UkhoTides.async_get_tidal_heights (c : UkhoTides) (station_id : String)
    (start_date end_date : Datetime) (interval : Int) (resp : Response) :
    CallResult (List TidalHeight) :=
  let url := c.base_url ++ "/" ++ station_id ++ "/TidalHeights?" ++
    "StartDateTime=" ++ start_date.strftime_ymd_hms ++
    "&EndDateTime=" ++ end_date.strftime_ymd_hms ++
    "&IntervalInMinutes=" ++ toString interval
  { client := c
    url := url
    result := do
      let data ← liftApi (c.async_get_data url resp)
      let items ← liftPy data.iter
      let heights ← liftPy (pyListMap TidalHeight.from_dict items)
      pure (heights.filterMap id) }

/-! ## Supporting lemmas -/

/-- `pyListMap` succeeds and returns exactly the related outputs when every
element parses to the paired value. -/
theorem pyListMap_forall2 {α : Type} {f : Json → Except PyErr α} {l : List Json} {as : List α}
    (h : List.Forall₂ (fun x a => f x = .ok a) l as) : pyListMap f l = .ok as := by
  induction h with
  | nil => rfl
  | cons h1 _ ih => simp [pyListMap, h1, ih]

/-- Reindex a pointwise `.ok (some _)` parse into a parse onto the list of
`some`-wrapped results. -/
theorem forall2_map_some {α : Type} {f : Json → Except PyErr (Option α)}
    {l : List Json} {es : List α}
    (h : List.Forall₂ (fun x e => f x = .ok (some e)) l es) :
    List.Forall₂ (fun x o => f x = .ok o) l (es.map some) := by
  induction h with
  | nil => exact List.Forall₂.nil
  | cons h1 _ ih => exact List.Forall₂.cons h1 ih

/-- `pyListMap` distributes over list append when both halves succeed. -/
theorem pyListMap_append {α : Type} {f : Json → Except PyErr α} {l1 l2 : List Json}
    {a1 a2 : List α} (h1 : pyListMap f l1 = .ok a1) (h2 : pyListMap f l2 = .ok a2) :
    pyListMap f (l1 ++ l2) = .ok (a1 ++ a2) := by
  induction l1 generalizing a1 with
  | nil =>
    simp only [pyListMap] at h1
    cases h1
    simpa using h2
  | cons x xs ih =>
    simp only [pyListMap] at h1 ⊢
    cases hx : f x with
    | error e => rw [hx] at h1; cases h1
    | ok a =>
      rw [hx] at h1
      cases hxs : pyListMap f xs with
      | error e => rw [hxs] at h1; cases h1
      | ok as =>
        rw [hxs] at h1
        cases h1
        simp [List.append_eq, ih hxs]

/-- Filtering the `some`-wrapped list recovers the original list. -/
theorem filterMap_id_map_some {α : Type} (l : List α) : (l.map some).filterMap id = l := by
  induction l with
  | nil => rfl
  | cons x xs ih => simp [List.filterMap_cons, ih]

/-- A `Station.from_dict` call succeeds with exactly the record whose fields
are the values found under the item's nested `properties`. -/
theorem station_from_dict_of_props (it : Json) (st : Station)
    (hid : (it.getItem "properties" >>= fun p => p.getItem "Id") = .ok st.id)
    (hname : (it.getItem "properties" >>= fun p => p.getItem "Name") = .ok st.name) :
    Station.from_dict it = .ok st := by
  cases hp : it.getItem "properties" with
  | error e => simp [hp, Bind.bind, Except.bind] at hid
  | ok p =>
    simp only [hp, Bind.bind, Except.bind] at hid hname
    cases st
    simp_all [Station.from_dict, hp, Bind.bind, Except.bind, Pure.pure, Except.pure]

/-- `Json.getItem` can only fail with `TypeError` or a `KeyError` for the
looked-up key itself. -/
theorem getItem_error_cases (j : Json) (k : String) (e : PyErr)
    (h : j.getItem k = .error e) : e = .typeError ∨ e = .keyError k := by
  unfold Json.getItem at h
  cases j <;> simp_all
  rename_i fields
  cases hl : fields.lookup k <;> rw [hl] at h <;> simp_all

/-- Iteration can only fail with `TypeError`. -/
theorem iter_error_cases (j : Json) (e : PyErr) (h : j.iter = .error e) : e = .typeError := by
  unfold Json.iter at h
  cases j <;> simp_all

/-- The only exceptions `Station.from_dict` can raise are `TypeError` or a
`KeyError` for one of its three accessed keys. -/
theorem station_from_dict_error_cases (j : Json) (e : PyErr)
    (h : Station.from_dict j = .error e) :
    e = .typeError ∨ e = .keyError "properties" ∨ e = .keyError "Id" ∨ e = .keyError "Name" := by
  unfold Station.from_dict at h
  cases hp : j.getItem "properties" with
  | error e' =>
    simp only [hp, Bind.bind, Except.bind] at h
    cases h
    rcases getItem_error_cases j "properties" e hp with h' | h'
    · exact Or.inl h'
    · exact Or.inr (Or.inl h')
  | ok p =>
    simp only [hp, Bind.bind, Except.bind] at h
    cases hid : p.getItem "Id" with
    | error e' =>
      rw [hid] at h
      cases h
      rcases getItem_error_cases p "Id" e hid with h' | h'
      · exact Or.inl h'
      · exact Or.inr (Or.inr (Or.inl h'))
    | ok i =>
      rw [hid] at h
      cases hn : p.getItem "Name" with
      | error e' =>
        rw [hn] at h
        cases h
        rcases getItem_error_cases p "Name" e hn with h' | h'
        · exact Or.inl h'
        · exact Or.inr (Or.inr (Or.inr h'))
      | ok n => rw [hn] at h; cases h

/-- An exception raised by `pyListMap` is raised by `f` on some element. -/
theorem pyListMap_error {α : Type} {f : Json → Except PyErr α} {l : List Json} {e : PyErr}
    (h : pyListMap f l = .error e) : ∃ x ∈ l, f x = .error e := by
  induction l with
  | nil => simp [pyListMap] at h
  | cons x xs ih =>
    simp only [pyListMap] at h
    cases hx : f x with
    | error e' =>
      rw [hx] at h
      cases h
      exact ⟨x, List.mem_cons_self x xs, hx⟩
    | ok a =>
      rw [hx] at h
      cases hxs : pyListMap f xs with
      | error e' =>
        rw [hxs] at h
        cases h
        obtain ⟨y, hy, hfy⟩ := ih hxs
        exact ⟨y, List.mem_cons_of_mem x hy, hfy⟩
      | ok as => rw [hxs] at h; cases h

/-! ## Claim theorems -/

/-- C1: for every HTTP response, the outcome of the shared fetch routine
`_async_get_data` is determined solely by the status code: 200 returns the
parsed body, 401 raises `InvalidApiKeyError`, 403 `ApiQuotaExceededError`,
404 `StationNotFoundError`, 429 `TooManyRequestsError`, and every other
non-200 status the generic `ApiError`. -/
theorem async_get_data_status_code_mapping (c : UkhoTides) (url : String) (resp : Response) :
    (c.async_get_data url resp = .ok resp.body ↔ resp.status = 200) ∧
    ((∃ s, c.async_get_data url resp = .error (.invalidApiKeyError s)) ↔ resp.status = 401) ∧
    ((∃ s, c.async_get_data url resp = .error (.apiQuotaExceededError s)) ↔ resp.status = 403) ∧
    ((∃ s, c.async_get_data url resp = .error (.stationNotFoundError s)) ↔ resp.status = 404) ∧
    ((∃ s, c.async_get_data url resp = .error (.tooManyRequestsError s)) ↔ resp.status = 429) ∧
    ((∃ s, c.async_get_data url resp = .error (.apiError s)) ↔
      (resp.status ≠ 200 ∧ resp.status ≠ 401 ∧ resp.status ≠ 403 ∧
       resp.status ≠ 404 ∧ resp.status ≠ 429)) := by
  unfold UkhoTides.async_get_data
  split_ifs with h1 h2 h3 h4 h5 <;> simp_all

/-- C2: a 200 tidal-events payload in which exactly one item fails to parse
(it lacks a required key) and every other item parses yields the parses of
the other items, in their original order, with the failing item omitted. -/
theorem async_get_tidal_events_omits_unparsable_item (c : UkhoTides) (sid : String)
    (dur : Option Int) (pre post : List Json) (bad : Json)
    (evs_pre evs_post : List TidalEvent)
    (hbad : TidalEvent.from_dict bad = .ok none)
    (hpre : List.Forall₂ (fun it e => TidalEvent.from_dict it = .ok (some e)) pre evs_pre)
    (hpost : List.Forall₂ (fun it e => TidalEvent.from_dict it = .ok (some e)) post evs_post) :
    (c.async_get_tidal_events sid dur ⟨200, .arr (pre ++ bad :: post)⟩).result
      = .ok (evs_pre ++ evs_post) ∧
    evs_pre.length = pre.length ∧ evs_post.length = post.length := by
  have hmap : pyListMap TidalEvent.from_dict (pre ++ bad :: post)
      = .ok (evs_pre.map some ++ none :: evs_post.map some) := by
    refine pyListMap_append (pyListMap_forall2 (forall2_map_some hpre)) ?_
    simp [pyListMap, hbad, pyListMap_forall2 (forall2_map_some hpost)]
  refine ⟨?_, hpre.length_eq.symm, hpost.length_eq.symm⟩
  simp [UkhoTides.async_get_tidal_events, UkhoTides.async_get_data, liftApi, liftPy,
    Json.iter, hmap, Bind.bind, Except.bind, Pure.pure, Except.pure,
    List.filterMap_append, List.filterMap_cons, filterMap_id_map_some]

/-- Witness for C2: a three-item payload whose middle item lacks `Height`
returns the first and third items parsed, in order. -/
theorem async_get_tidal_events_omits_unparsable_item_witness :
    ((UkhoTides.init 0 "key" .Discovery).async_get_tidal_events "0001" (some 4)
        ⟨200, .arr
          ([Json.obj [("EventType", .str "HighWater"),
                      ("DateTime", .str "2020-01-01T00:00:00"), ("Height", .num 1.5)]] ++
            Json.obj [("EventType", .str "LowWater"),
                      ("DateTime", .str "2020-01-01T06:00:00")] ::
            [Json.obj [("EventType", .str "HighWater"),
                       ("DateTime", .str "2020-01-01T12:00:00"), ("Height", .num 1.8)]])⟩).result
      = .ok [TidalEvent.mk (.str "HighWater") (.str "2020-01-01T00:00:00") (.num 1.5),
             TidalEvent.mk (.str "HighWater") (.str "2020-01-01T12:00:00") (.num 1.8)] :=
  (async_get_tidal_events_omits_unparsable_item (UkhoTides.init 0 "key" .Discovery) "0001"
    (some 4)
    [Json.obj [("EventType", .str "HighWater"),
               ("DateTime", .str "2020-01-01T00:00:00"), ("Height", .num 1.5)]]
    [Json.obj [("EventType", .str "HighWater"),
               ("DateTime", .str "2020-01-01T12:00:00"), ("Height", .num 1.8)]]
    (Json.obj [("EventType", .str "LowWater"), ("DateTime", .str "2020-01-01T06:00:00")])
    [TidalEvent.mk (.str "HighWater") (.str "2020-01-01T00:00:00") (.num 1.5)]
    [TidalEvent.mk (.str "HighWater") (.str "2020-01-01T12:00:00") (.num 1.8)]
    rfl
    (List.Forall₂.cons rfl List.Forall₂.nil)
    (List.Forall₂.cons rfl List.Forall₂.nil)).1

/-- Counterexample to C3 as stated: `Station.from_dict` does not tolerate a
missing required field; on an object without `properties` it raises
`KeyError` instead of returning a no-value marker (its return type carries
no marker at all). -/
theorem station_from_dict_raises_on_missing_key :
    Station.from_dict (.obj []) = .error (.keyError "properties") := rfl

/-- C3 (amended): the `TidalEvent` and `TidalHeight` parsers tolerate a
missing required key by returning the no-value marker `None` without
raising, but the `Station` parser does not: it raises the `KeyError`. -/
theorem soft_fail_parsers_return_none_on_missing_key :
    (∀ fields : List (String × Json),
      (fields.lookup "EventType" = none ∨ fields.lookup "DateTime" = none ∨
        fields.lookup "Height" = none) →
      TidalEvent.from_dict (.obj fields) = .ok none) ∧
    (∀ fields : List (String × Json),
      (fields.lookup "DateTime" = none ∨ fields.lookup "Height" = none) →
      TidalHeight.from_dict (.obj fields) = .ok none) ∧
    (∀ fields : List (String × Json),
      fields.lookup "properties" = none →
      Station.from_dict (.obj fields) = .error (.keyError "properties")) := by
  refine ⟨fun fields h => ?_, fun fields h => ?_, fun fields h => ?_⟩
  · rcases h with h | h | h
    · simp [TidalEvent.from_dict, Json.getItem, h, Bind.bind, Except.bind]
    · cases hE : fields.lookup "EventType" <;>
        simp [TidalEvent.from_dict, Json.getItem, h, hE, Bind.bind, Except.bind]
    · cases hE : fields.lookup "EventType" <;> cases hD : fields.lookup "DateTime" <;>
        simp [TidalEvent.from_dict, Json.getItem, h, hE, hD, Bind.bind, Except.bind]
  · rcases h with h | h
    · simp [TidalHeight.from_dict, Json.getItem, h, Bind.bind, Except.bind]
    · cases hD : fields.lookup "DateTime" <;>
        simp [TidalHeight.from_dict, Json.getItem, h, hD, Bind.bind, Except.bind]
  · simp [Station.from_dict, Json.getItem, h, Bind.bind, Except.bind]

/-- Witness for the amended C3, at objects each missing one required key. -/
theorem soft_fail_parsers_return_none_on_missing_key_witness :
    TidalEvent.from_dict (.obj [("EventType", .str "HighWater"),
        ("DateTime", .str "2020-01-01T00:00:00")]) = .ok none ∧
    TidalHeight.from_dict (.obj [("DateTime", .str "2020-01-01T00:00:00")]) = .ok none ∧
    Station.from_dict (.obj [("Id", .str "0001")]) = .error (.keyError "properties") :=
  ⟨soft_fail_parsers_return_none_on_missing_key.1 _ (Or.inr (Or.inr rfl)),
   soft_fail_parsers_return_none_on_missing_key.2.1 _ (Or.inr rfl),
   soft_fail_parsers_return_none_on_missing_key.2.2 _ rfl⟩

/-- Counterexample to C4 as stated: at status 400 the raised `ApiError`
stores the message string `"Invalid response from API: 400"` as its `status`
attribute; the carried value is not the numeric status (its decimal
rendering `"400"`). -/
theorem api_error_carries_message_string_not_number :
    (UkhoTides.init 0 "k" .Discovery).async_get_data "url" ⟨400, .null⟩
        = .error (.apiError "Invalid response from API: 400") ∧
    "Invalid response from API: 400" ≠ toString (400 : Nat) :=
  ⟨rfl, by decide⟩

/-- C4 (amended): for every non-200 status other than 401, 403, 404 and 429,
the fetch routine raises `ApiError` whose stored `status` attribute is the
message string `"Invalid response from API: "` followed by the decimal
status code; the numeric status is embedded in that text, not carried as a
number. -/
theorem async_get_data_other_status_api_error_message (c : UkhoTides) (url : String)
    (resp : Response) (h200 : resp.status ≠ 200) (h401 : resp.status ≠ 401)
    (h403 : resp.status ≠ 403) (h404 : resp.status ≠ 404) (h429 : resp.status ≠ 429) :
    c.async_get_data url resp
      = .error (.apiError ("Invalid response from API: " ++ toString resp.status)) := by
  unfold UkhoTides.async_get_data
  split_ifs <;> simp_all

/-- Witness for the amended C4 at status 400. -/
theorem async_get_data_other_status_api_error_message_witness :
    (400 : Nat) ≠ 200 ∧ (400 : Nat) ≠ 401 ∧ (400 : Nat) ≠ 403 ∧
    (400 : Nat) ≠ 404 ∧ (400 : Nat) ≠ 429 ∧
    (UkhoTides.init 0 "k" .Discovery).async_get_data "url" ⟨400, .null⟩
      = .error (.apiError ("Invalid response from API: " ++ toString (400 : Nat))) :=
  ⟨by decide, by decide, by decide, by decide, by decide,
   async_get_data_other_status_api_error_message (UkhoTides.init 0 "k" .Discovery) "url"
     ⟨400, .null⟩ (by decide) (by decide) (by decide) (by decide) (by decide)⟩

/-- C5: the date-range tidal-events call formats the start as
`YYYY-MM-DD HH:MM:SS` and the end as `YYYY-MM-DD` only, while the
tidal-heights call formats both ends as full timestamps; at the spec's
example datetimes the queries are exactly
`StartDate=2020-01-01 00:00:00&EndDate=2020-01-30` and
`StartDateTime=2020-01-01 00:00:00&EndDateTime=2020-01-01 02:00:00`. -/
theorem date_range_and_heights_date_formatting :
    (∀ (c : UkhoTides) (sid : String) (s e : Datetime) (resp : Response),
      (c.async_get_tidal_events_for_date_range sid s e resp).url =
        c.base_url ++ "/" ++ sid ++ "/TidalEventsForDateRange?" ++
          "StartDate=" ++ s.strftime_ymd_hms ++ "&EndDate=" ++ e.strftime_ymd) ∧
    (∀ (c : UkhoTides) (sid : String) (s e : Datetime) (iv : Int) (resp : Response),
      (c.async_get_tidal_heights sid s e iv resp).url =
        c.base_url ++ "/" ++ sid ++ "/TidalHeights?" ++
          "StartDateTime=" ++ s.strftime_ymd_hms ++ "&EndDateTime=" ++ e.strftime_ymd_hms ++
          "&IntervalInMinutes=" ++ toString iv) ∧
    ((UkhoTides.init 0 "k" .Premium).async_get_tidal_events_for_date_range "0001"
        ⟨2020, 1, 1, 0, 0, 0⟩ ⟨2020, 1, 30, 0, 0, 0⟩ ⟨200, .arr []⟩).url =
      "https://admiraltyapi.azure-api.net/uktidalapi-premium/api/V2/Stations/0001/TidalEventsForDateRange?StartDate=2020-01-01 00:00:00&EndDate=2020-01-30" ∧
    ((UkhoTides.init 0 "k" .Premium).async_get_tidal_heights "0001"
        ⟨2020, 1, 1, 0, 0, 0⟩ ⟨2020, 1, 1, 2, 0, 0⟩ 60 ⟨200, .arr []⟩).url =
      "https://admiraltyapi.azure-api.net/uktidalapi-premium/api/V2/Stations/0001/TidalHeights?StartDateTime=2020-01-01 00:00:00&EndDateTime=2020-01-01 02:00:00&IntervalInMinutes=60" :=
  ⟨fun _ _ _ _ _ => rfl, fun _ _ _ _ _ _ => rfl, by rfl, by rfl⟩

/-- C6: the client constructed with each tier resolves its base URL once at
construction to the tier-specific base path of §6 (plus the shared
`/Stations` collection segment), and every request URL of every operation
extends that tier base path. -/
theorem requests_use_tier_base_path (session : Nat) (key : String) (lvl : ApiLevel) :
    (UkhoTides.init session key lvl).base_url
        = BASE_ENDPOINT ++ specTierBasePath lvl ++ "/Stations" ∧
    (∀ name resp, ∃ rest,
      ((UkhoTides.init session key lvl).async_get_stations name resp).url
        = BASE_ENDPOINT ++ specTierBasePath lvl ++ rest) ∧
    (∀ sid resp, ∃ rest,
      ((UkhoTides.init session key lvl).async_get_station sid resp).url
        = BASE_ENDPOINT ++ specTierBasePath lvl ++ rest) ∧
    (∀ sid dur resp, ∃ rest,
      ((UkhoTides.init session key lvl).async_get_tidal_events sid dur resp).url
        = BASE_ENDPOINT ++ specTierBasePath lvl ++ rest) ∧
    (∀ sid s e resp, ∃ rest,
      ((UkhoTides.init session key lvl).async_get_tidal_events_for_date_range sid s e resp).url
        = BASE_ENDPOINT ++ specTierBasePath lvl ++ rest) ∧
    (∀ sid dt resp, ∃ rest,
      ((UkhoTides.init session key lvl).async_get_tidal_height sid dt resp).url
        = BASE_ENDPOINT ++ specTierBasePath lvl ++ rest) ∧
    (∀ sid s e iv resp, ∃ rest,
      ((UkhoTides.init session key lvl).async_get_tidal_heights sid s e iv resp).url
        = BASE_ENDPOINT ++ specTierBasePath lvl ++ rest) := by
  have hb : (UkhoTides.init session key lvl).base_url
      = BASE_ENDPOINT ++ specTierBasePath lvl ++ "/Stations" := by
    cases lvl <;> rfl
  refine ⟨hb, ?_, ?_, ?_, ?_, ?_, ?_⟩
  · intro name resp
    cases name with
    | none => exact ⟨"/Stations", hb⟩
    | some n =>
      refine ⟨"/Stations" ++ "?name=" ++ n, ?_⟩
      show (UkhoTides.init session key lvl).base_url ++ "?name=" ++ n = _
      rw [hb]; simp [String.append_assoc]
  · intro sid resp
    refine ⟨"/Stations" ++ "/" ++ sid, ?_⟩
    show (UkhoTides.init session key lvl).base_url ++ "/" ++ sid = _
    rw [hb]; simp [String.append_assoc]
  · intro sid dur resp
    cases dur with
    | none =>
      refine ⟨"/Stations" ++ "/" ++ sid ++ "/TidalEvents", ?_⟩
      show (UkhoTides.init session key lvl).base_url ++ "/" ++ sid ++ "/TidalEvents" = _
      rw [hb]; simp [String.append_assoc]
    | some d =>
      refine ⟨"/Stations" ++ "/" ++ sid ++ "/TidalEvents" ++ "?duration=" ++ toString d, ?_⟩
      show (UkhoTides.init session key lvl).base_url ++ "/" ++ sid ++ "/TidalEvents"
          ++ "?duration=" ++ toString d = _
      rw [hb]; simp [String.append_assoc]
  · intro sid s e resp
    refine ⟨"/Stations" ++ "/" ++ sid ++ "/TidalEventsForDateRange?" ++ "StartDate="
      ++ s.strftime_ymd_hms ++ "&EndDate=" ++ e.strftime_ymd, ?_⟩
    show (UkhoTides.init session key lvl).base_url ++ "/" ++ sid ++ "/TidalEventsForDateRange?"
        ++ "StartDate=" ++ s.strftime_ymd_hms ++ "&EndDate=" ++ e.strftime_ymd = _
    rw [hb]; simp [String.append_assoc]
  · intro sid dt resp
    refine ⟨"/Stations" ++ "/" ++ sid ++ "/TidalHeight?" ++ "DateTime=" ++ dt.strftime_ymd_hms, ?_⟩
    show (UkhoTides.init session key lvl).base_url ++ "/" ++ sid ++ "/TidalHeight?"
        ++ "DateTime=" ++ dt.strftime_ymd_hms = _
    rw [hb]; simp [String.append_assoc]
  · intro sid s e iv resp
    refine ⟨"/Stations" ++ "/" ++ sid ++ "/TidalHeights?" ++ "StartDateTime="
      ++ s.strftime_ymd_hms ++ "&EndDateTime=" ++ e.strftime_ymd_hms
      ++ "&IntervalInMinutes=" ++ toString iv, ?_⟩
    show (UkhoTides.init session key lvl).base_url ++ "/" ++ sid ++ "/TidalHeights?"
        ++ "StartDateTime=" ++ s.strftime_ymd_hms ++ "&EndDateTime=" ++ e.strftime_ymd_hms
        ++ "&IntervalInMinutes=" ++ toString iv = _
    rw [hb]; simp [String.append_assoc]

/-- C7: a 200 list-stations body whose `features` array items each relate to
a station record by having that record's `id` under `properties.Id` and its
`name` under `properties.Name` yields exactly those station records, one per
item, in the same order. -/
theorem async_get_stations_maps_features_to_stations (c : UkhoTides) (name : Option String)
    (body : Json) (items : List Json) (stations : List Station)
    (hfeat : body.getItem "features" = .ok (.arr items))
    (hparse : List.Forall₂ (fun it st =>
        (it.getItem "properties" >>= fun p => p.getItem "Id") = .ok st.id ∧
        (it.getItem "properties" >>= fun p => p.getItem "Name") = .ok st.name)
      items stations) :
    (c.async_get_stations name ⟨200, body⟩).result = .ok stations ∧
    stations.length = items.length := by
  have hmap : pyListMap Station.from_dict items = .ok stations :=
    pyListMap_forall2 (hparse.imp fun it st h => station_from_dict_of_props it st h.1 h.2)
  refine ⟨?_, hparse.length_eq.symm⟩
  simp [UkhoTides.async_get_stations, UkhoTides.async_get_data, liftApi, liftPy,
    hfeat, Json.iter, hmap, Bind.bind, Except.bind, Pure.pure, Except.pure]

/-- Witness for C7: a two-item `features` array yields the two stations with
copied ids and names, in order. -/
theorem async_get_stations_maps_features_to_stations_witness :
    ((UkhoTides.init 0 "k" .Discovery).async_get_stations none
        ⟨200, .obj [("features", .arr
          [Json.obj [("properties", .obj [("Id", .str "0001"), ("Name", .str "StationOne")])],
           Json.obj [("properties", .obj [("Id", .str "0002"), ("Name", .str "StationTwo")])]])]⟩).result
      = .ok [Station.mk (.str "0001") (.str "StationOne"),
             Station.mk (.str "0002") (.str "StationTwo")] :=
  (async_get_stations_maps_features_to_stations (UkhoTides.init 0 "k" .Discovery) none
    (.obj [("features", .arr
      [Json.obj [("properties", .obj [("Id", .str "0001"), ("Name", .str "StationOne")])],
       Json.obj [("properties", .obj [("Id", .str "0002"), ("Name", .str "StationTwo")])]])])
    [Json.obj [("properties", .obj [("Id", .str "0001"), ("Name", .str "StationOne")])],
     Json.obj [("properties", .obj [("Id", .str "0002"), ("Name", .str "StationTwo")])]]
    [Station.mk (.str "0001") (.str "StationOne"), Station.mk (.str "0002") (.str "StationTwo")]
    rfl
    (List.Forall₂.cons ⟨rfl, rfl⟩ (List.Forall₂.cons ⟨rfl, rfl⟩ List.Forall₂.nil))).1

/-- C8: a 200 get-tidal-height body containing a `Height` field yields
exactly that field's value. -/
theorem async_get_tidal_height_returns_height_value (c : UkhoTides) (sid : String)
    (dt : Datetime) (body : Json) (v : Json)
    (h : body.getItem "Height" = .ok v) :
    (c.async_get_tidal_height sid dt ⟨200, body⟩).result = .ok v := by
  simp [UkhoTides.async_get_tidal_height, UkhoTides.async_get_data, liftApi, liftPy, h,
    Bind.bind, Except.bind]

/-- Witness for C8: body `{"Height": 3.2}` yields exactly `3.2`. -/
theorem async_get_tidal_height_returns_height_value_witness :
    (Json.obj [("Height", .num 3.2)]).getItem "Height" = .ok (.num 3.2) ∧
    ((UkhoTides.init 0 "k" .Premium).async_get_tidal_height "0001" ⟨2020, 1, 1, 0, 0, 0⟩
        ⟨200, .obj [("Height", .num 3.2)]⟩).result = .ok (.num 3.2) :=
  ⟨rfl, async_get_tidal_height_returns_height_value (UkhoTides.init 0 "k" .Premium) "0001"
    ⟨2020, 1, 1, 0, 0, 0⟩ (.obj [("Height", .num 3.2)]) (.num 3.2) rfl⟩

/-- C9: every public operation returns the client state it was called with:
the session, api key, api level and resolved base URL are those set at
construction, whatever the response was. -/
theorem client_state_unchanged_by_calls (c : UkhoTides) :
    (∀ name resp, (c.async_get_stations name resp).client = c) ∧
    (∀ sid resp, (c.async_get_station sid resp).client = c) ∧
    (∀ sid dur resp, (c.async_get_tidal_events sid dur resp).client = c) ∧
    (∀ sid s e resp, (c.async_get_tidal_events_for_date_range sid s e resp).client = c) ∧
    (∀ sid dt resp, (c.async_get_tidal_height sid dt resp).client = c) ∧
    (∀ sid s e iv resp, (c.async_get_tidal_heights sid s e iv resp).client = c) :=
  ⟨fun _ _ => rfl, fun _ _ => rfl, fun _ _ _ => rfl, fun _ _ _ _ => rfl,
   fun _ _ _ => rfl, fun _ _ _ _ _ => rfl⟩

/-- C10: a 200 body that is an object lacking the expected top-level key
(`features` for list stations, `Height` for get tidal height) makes the
operation raise an uncaught `KeyError` for that key, which is distinct from
every one of the five documented exception kinds; a 200 body carrying the
key raises no such error. -/
theorem missing_top_level_key_raises_uncaught_key_error :
    (∀ (c : UkhoTides) (name : Option String) (fields : List (String × Json)),
      fields.lookup "features" = none →
      (c.async_get_stations name ⟨200, .obj fields⟩).result
        = .error (.py (.keyError "features"))) ∧
    (∀ (c : UkhoTides) (sid : String) (dt : Datetime) (fields : List (String × Json)),
      fields.lookup "Height" = none →
      (c.async_get_tidal_height sid dt ⟨200, .obj fields⟩).result
        = .error (.py (.keyError "Height"))) ∧
    (∀ e : ApiException, ClientError.py (.keyError "features") ≠ .api e ∧
      ClientError.py (.keyError "Height") ≠ .api e) ∧
    (∀ (c : UkhoTides) (name : Option String) (body v : Json),
      body.getItem "features" = .ok v →
      (c.async_get_stations name ⟨200, body⟩).result ≠ .error (.py (.keyError "features"))) ∧
    (∀ (c : UkhoTides) (sid : String) (dt : Datetime) (body v : Json),
      body.getItem "Height" = .ok v →
      (c.async_get_tidal_height sid dt ⟨200, body⟩).result = .ok v) := by
  refine ⟨?_, ?_, ?_, ?_, ?_⟩
  · intro c name fields h
    simp [UkhoTides.async_get_stations, UkhoTides.async_get_data, liftApi, liftPy,
      Json.getItem, h, Bind.bind, Except.bind]
  · intro c sid dt fields h
    simp [UkhoTides.async_get_tidal_height, UkhoTides.async_get_data, liftApi, liftPy,
      Json.getItem, h, Bind.bind, Except.bind]
  · intro e
    constructor
    · intro h; cases h
    · intro h; cases h
  · intro c name body v hv hcon
    cases hi : v.iter with
    | error e =>
      have he := iter_error_cases v e hi
      subst he
      simp [UkhoTides.async_get_stations, UkhoTides.async_get_data, liftApi, liftPy,
        hv, hi, Bind.bind, Except.bind] at hcon
    | ok items =>
      cases hm : pyListMap Station.from_dict items with
      | error e =>
        obtain ⟨x, _, hfx⟩ := pyListMap_error hm
        have hcases := station_from_dict_error_cases x e hfx
        simp [UkhoTides.async_get_stations, UkhoTides.async_get_data, liftApi, liftPy,
          hv, hi, hm, Bind.bind, Except.bind] at hcon
        subst hcon
        simp at hcases
      | ok sts =>
        simp [UkhoTides.async_get_stations, UkhoTides.async_get_data, liftApi, liftPy,
          hv, hi, hm, Bind.bind, Except.bind, Pure.pure, Except.pure] at hcon
  · intro c sid dt body v hv
    simp [UkhoTides.async_get_tidal_height, UkhoTides.async_get_data, liftApi, liftPy,
      hv, Bind.bind, Except.bind]

/-- Witness for C10: an object body without the key raises the `KeyError`;
bodies carrying the key do not. -/
theorem missing_top_level_key_raises_uncaught_key_error_witness :
    ((UkhoTides.init 0 "k" .Discovery).async_get_stations none ⟨200, .obj []⟩).result
      = .error (.py (.keyError "features")) ∧
    ((UkhoTides.init 0 "k" .Premium).async_get_tidal_height "0001" ⟨2020, 1, 1, 0, 0, 0⟩
        ⟨200, .obj []⟩).result = .error (.py (.keyError "Height")) ∧
    ((UkhoTides.init 0 "k" .Discovery).async_get_stations none
        ⟨200, .obj [("features", .arr [])]⟩).result ≠ .error (.py (.keyError "features")) ∧
    ((UkhoTides.init 0 "k" .Premium).async_get_tidal_height "0001" ⟨2020, 1, 1, 0, 0, 0⟩
        ⟨200, .obj [("Height", .num 3.0)]⟩).result = .ok (.num 3.0) :=
  ⟨missing_top_level_key_raises_uncaught_key_error.1 _ none [] rfl,
   missing_top_level_key_raises_uncaught_key_error.2.1 _ "0001" ⟨2020, 1, 1, 0, 0, 0⟩ [] rfl,
   missing_top_level_key_raises_uncaught_key_error.2.2.2.1 _ none
     (.obj [("features", .arr [])]) (.arr []) rfl,
   missing_top_level_key_raises_uncaught_key_error.2.2.2.2 _ "0001" ⟨2020, 1, 1, 0, 0, 0⟩
     (.obj [("Height", .num 3.0)]) (.num 3.0) rfl⟩
